import Mathlib

/- Verification development for the errorparser repository.

The program turns toolchain diagnostic output into normalized error
records.  Its core (src/parser.go, src/main.go and the per-language
grammar files) is embedded below: the lexer rule set of `logLexer` is
translated rule by rule into maximal-munch length functions, lines are
tokenized by picking at every position the longest match (format-specific
literal markers taking priority over the generic identifier and path
rules on ties, as the lexer's own comments and the documented examples
require), and each participle grammar struct becomes a function from the
token list to an optional node.  Strings are modelled as lists of
characters. -/

namespace ErrorParser

abbrev Chars := List Char

/- Character classes used by the lexer rules of `logLexer` in
src/parser.go.  `wordChar` is the regex class of the Word rule,
`segChar` the path-segment class of the Path rule. -/

def wsChar (c : Char) : Bool := c == ' ' || c == '\t'

def eolChar (c : Char) : Bool := c == '\n' || c == '\r'

def wordChar (c : Char) : Bool := c.isAlphanum || c == '_'

def segChar (c : Char) : Bool := c.isAlphanum || c == '_' || c == '.' || c == '-'

/- Length of the longest prefix whose characters all satisfy `p`. -/
def takeWhileLen (p : Char → Bool) : Chars → Nat
  | [] => 0
  | c :: cs => if p c then takeWhileLen p cs + 1 else 0

/- Rule `Whitespace`, regex `[ \t]+`. -/
def wsLen (cs : Chars) : Nat := takeWhileLen wsChar cs

/- Rule `EOL`, regex `[\n\r]+`. -/
def eolLen (cs : Chars) : Nat := takeWhileLen eolChar cs

/- Rule `Number`, regex `\d+`. -/
def numLen (cs : Chars) : Nat := takeWhileLen Char.isDigit cs

/- Rule `Word`, regex `[a-zA-Z_][a-zA-Z0-9_]*`. -/
def wordLen : Chars → Nat
  | [] => 0
  | c :: cs => if c.isAlpha || c == '_' then takeWhileLen wordChar cs + 1 else 0

def headSeg : Chars → Bool
  | [] => false
  | c :: _ => segChar c

/- Greedy length of `(?:[\\/]?[\w\.\-_]+)+`: a separator is consumed
only when a segment character follows it, and the match stops at the
first character that continues no group. -/
def pathLoop : Chars → Nat
  | [] => 0
  | c :: cs =>
    if segChar c then pathLoop cs + 1
    else if (c == '/' || c == '\\') && headSeg cs then pathLoop cs + 1
    else 0

/- Rule `Path`, regex `(?:[a-zA-Z]:)?(?:[\\/]?[\w\.\-_]+)+`.  The
optional drive prefix participates only when at least one group matches
after it. -/
def pathLen : Chars → Nat
  | a :: ':' :: rest =>
    if a.isAlpha ∧ 0 < pathLoop rest then pathLoop rest + 2
    else pathLoop (a :: ':' :: rest)
  | cs => pathLoop cs

/- Literal-prefix test, structurally recursive in the pattern. -/
def litPrefix : Chars → Chars → Bool
  | [], _ => true
  | _ :: _, [] => false
  | p :: ps, c :: cs => p == c && litPrefix ps cs

/- Rule `PanicStart`, the literal marker for Go panic lines. -/
def panicLen (cs : Chars) : Nat :=
  if litPrefix ("panic:".data) cs then 6 else 0

/- Rule `FileStart`, the literal marker opening a Python File line. -/
def fileStartLen (cs : Chars) : Nat :=
  if litPrefix ("File \"".data) cs then 6 else 0

/- Body of the `String` rule `"(\\"|[^"])*"` after its opening quote:
the escaped-quote branch is preferred, with the fallback of reading the
backslash as a plain character when no closing quote follows. -/
def stringBody : Chars → Option Nat
  | '\\' :: '"' :: rest =>
    match stringBody rest with
    | some n => some (n + 2)
    | none => some 2
  | '"' :: _ => some 1
  | _ :: rest => (stringBody rest).map (· + 1)
  | [] => none

def stringLen : Chars → Nat
  | '"' :: cs =>
    match stringBody cs with
    | some n => n + 1
    | none => 0
  | _ => 0

def colonLen : Chars → Nat
  | ':' :: _ => 1
  | _ => 0

def commaLen : Chars → Nat
  | ',' :: _ => 1
  | _ => 0

/- Rule `Other`, regex `.`: any single character except a newline. -/
def otherLen : Chars → Nat
  | [] => 0
  | c :: _ => if c == '\n' then 0 else 1

/- Token kinds of `logLexer`, together with the four kinds the Rust
grammar of src/unnamed/part_001 refers to. -/
inductive TokKind where
  | Whitespace | EOL | Number | Word | Path
  | PanicStart | FileStart | Str | Colon | Comma | Other
  | LBracket | RBracket | ErrorCode | Arrow
  deriving DecidableEq, Repr

structure Tok where
  kind : TokKind
  text : Chars
  deriving DecidableEq, Repr

/- Candidate rule matches at the current position, listed with the
literal markers first so that the first entry achieving the maximal
length wins (longest match, markers over generic kinds on ties). -/
def candidates (cs : Chars) : List (TokKind × Nat) :=
  [ (TokKind.PanicStart, panicLen cs), (TokKind.FileStart, fileStartLen cs),
    (TokKind.Str, stringLen cs),
    (TokKind.Whitespace, wsLen cs), (TokKind.EOL, eolLen cs),
    (TokKind.Number, numLen cs), (TokKind.Word, wordLen cs),
    (TokKind.Path, pathLen cs),
    (TokKind.Colon, colonLen cs), (TokKind.Comma, commaLen cs),
    (TokKind.Other, otherLen cs) ]

/- First entry of the list achieving the maximal length. -/
def pickBest : List (TokKind × Nat) → TokKind × Nat
  | [] => (TokKind.Other, 0)
  | (k, n) :: rest =>
    let kn := pickBest rest
    if n < kn.2 then kn else (k, n)

def nextToken (cs : Chars) : Tok × Chars :=
  let kn := pickBest (candidates cs)
  let n := max kn.2 1
  (⟨kn.1, cs.take n⟩, cs.drop n)

/- Fuel-driven tokenization loop; each step consumes at least one
character, so fuel `cs.length + 1` always suffices. -/
def tokenizeF : Nat → Chars → List Tok
  | 0, _ => []
  | _, [] => []
  | fuel + 1, c :: cs =>
    let tr := nextToken (c :: cs)
    tr.1 :: tokenizeF fuel tr.2

def tokenize (cs : Chars) : List Tok := tokenizeF (cs.length + 1) cs

def joinToks (ts : List Tok) : Chars := ts.foldr (fun t acc => t.text ++ acc) []

/- Go string helpers used by ParseLine and the ToErrorInfo methods. -/

def endsWithNL (cs : Chars) : Bool := cs.getLast? == some '\n'

def withNL (cs : Chars) : Chars := if endsWithNL cs then cs else cs ++ '\n' :: []

def trimSuffixNL (cs : Chars) : Chars := if endsWithNL cs then cs.dropLast else cs

/- strings.TrimSpace, on the ASCII whitespace characters that can occur
in the byte-oriented inputs in scope. -/
def goSpace (c : Char) : Bool :=
  c == ' ' || c == '\t' || c == '\n' || c == '\r' || c == '\x0b' || c == '\x0c'

def trimSpace (cs : Chars) : Chars :=
  ((cs.dropWhile goSpace).reverse.dropWhile goSpace).reverse

/- Data model: ErrorInfo and the per-format grammar nodes, with the
field names of the Go structs. -/

structure ErrorInfo where
  Filename : Chars := []
  Line : Nat := 0
  Column : Option Nat := none
  Typ : Chars := []
  Message : Chars := []
  deriving DecidableEq, Repr

structure FlutterError where
  Filename : Chars
  Line : Nat
  Column : Nat
  ErrType : Chars
  Message : Chars
  deriving DecidableEq, Repr

def FlutterError.ToErrorInfo (e : FlutterError) : ErrorInfo :=
  { Filename := e.Filename, Line := e.Line, Column := some e.Column,
    Typ := e.ErrType, Message := trimSpace e.Message }

structure PythonFileRef where
  Filename : Chars
  Line : Nat
  deriving DecidableEq, Repr

structure PythonErrorLine where
  ErrType : Chars
  Message : Chars
  deriving DecidableEq, Repr

structure GoCompileError where
  Filename : Chars
  Line : Nat
  Column : Nat
  Message : Chars
  deriving DecidableEq, Repr

def GoCompileError.ToErrorInfo (e : GoCompileError) : ErrorInfo :=
  { Filename := e.Filename, Line := e.Line, Column := some e.Column,
    Typ := "Error".data, Message := trimSpace e.Message }

structure GoPanic where
  Message : Chars
  StackFile : Chars
  StackLine : Nat
  deriving DecidableEq, Repr

def GoPanic.ToErrorInfo (e : GoPanic) : ErrorInfo :=
  let info : ErrorInfo := { Typ := "Panic".data, Message := trimSpace e.Message }
  let info := if e.StackFile ≠ [] then { info with Filename := e.StackFile } else info
  if 0 < e.StackLine then { info with Line := e.StackLine } else info

structure PythonParseResult where
  FileRef : Option PythonFileRef
  Error : Option PythonErrorLine
  deriving DecidableEq, Repr

structure GoParseResult where
  CompileError : Option GoCompileError
  Panic : Option GoPanic
  deriving DecidableEq, Repr

structure UnmatchedLine where
  Content : Chars
  deriving DecidableEq, Repr

/- Token-stream matching helpers.  Whitespace tokens are elided before
every structural token, mirroring participle.Elide("Whitespace");
`restAll` realizes the Rest capture, re-assembling the raw remaining
text of the line. -/

def dropWs (ts : List Tok) : List Tok :=
  ts.dropWhile (fun t => decide (t.kind = TokKind.Whitespace))

def expectKind (k : TokKind) (ts : List Tok) : Option (Chars × List Tok) :=
  match dropWs ts with
  | t :: rest => if t.kind = k then some (t.text, rest) else none
  | [] => none

def expectText (s : Chars) (ts : List Tok) : Option (List Tok) :=
  match dropWs ts with
  | t :: rest => if t.text = s then some rest else none
  | [] => none

def digitsToNat (cs : Chars) : Nat :=
  cs.foldl (fun n c => n * 10 + (c.toNat - '0'.toNat)) 0

def expectNumber (ts : List Tok) : Option (Nat × List Tok) :=
  match expectKind TokKind.Number ts with
  | some (txt, rest) => some (digitsToNat txt, rest)
  | none => none

def restAll (ts : List Tok) : Chars := joinToks ts

def notEOL (t : Tok) : Bool := decide (t.kind ≠ TokKind.EOL)

def restUntilEOL (ts : List Tok) : Chars × List Tok :=
  (joinToks (ts.takeWhile notEOL), ts.dropWhile notEOL)

def optionalEOL (ts : List Tok) : List Tok :=
  match dropWs ts with
  | t :: rest => if t.kind = TokKind.EOL then rest else dropWs ts
  | [] => []

def atEnd (ts : List Tok) : Bool := (dropWs ts).isEmpty

/- Grammar of FlutterError: `@Path ":" @Number ":" @Number ":" @Word
":" @Rest`. -/
def flutterMatch (ts : List Tok) : Option FlutterError := do
  let (fn, ts) ← expectKind TokKind.Path ts
  let ts ← expectText (":".data) ts
  let (l, ts) ← expectNumber ts
  let ts ← expectText (":".data) ts
  let (c, ts) ← expectNumber ts
  let ts ← expectText (":".data) ts
  let (w, ts) ← expectKind TokKind.Word ts
  let ts ← expectText (":".data) ts
  pure ⟨fn, l, c, w, restAll ts⟩

/- Grammar of GoCompileError: `@Path ":" @Number ":" @Number ":"
@Rest`. -/
def goCompileMatch (ts : List Tok) : Option GoCompileError := do
  let (fn, ts) ← expectKind TokKind.Path ts
  let ts ← expectText (":".data) ts
  let (l, ts) ← expectNumber ts
  let ts ← expectText (":".data) ts
  let (c, ts) ← expectNumber ts
  let ts ← expectText (":".data) ts
  pure ⟨fn, l, c, restAll ts⟩

/- Grammar of GoPanic: `@PanicStart @Rest (@Path ":")? @Number?`.  The
Rest capture consumes the remainder of the line, so the optional stack
suffix never receives tokens and its fields keep their zero values. -/
def goPanicMatch (ts : List Tok) : Option GoPanic := do
  let (_, ts) ← expectKind TokKind.PanicStart ts
  pure ⟨restAll ts, [], 0⟩

/- Grammar of PythonFileRef: the FileStart marker, the quoted path, a
comma, the literal word line and the line number, closed by an optional
end of line (the `@@ EOL?` branch of PythonParseResult). -/
def pythonFileRefMatch (ts : List Tok) : Option PythonFileRef := do
  let (_, ts) ← expectKind TokKind.FileStart ts
  let (fn, ts) ← expectKind TokKind.Path ts
  let ts ← expectText ("\"".data) ts
  let ts ← expectText (",".data) ts
  let ts ← expectText ("line".data) ts
  let (l, ts) ← expectNumber ts
  if atEnd (optionalEOL ts) then pure ⟨fn, l⟩ else none

/- Grammar of PythonErrorLine: `@Word ":" @Rest`. -/
def pythonErrorLineMatch (ts : List Tok) : Option PythonErrorLine := do
  let (w, ts) ← expectKind TokKind.Word ts
  let ts ← expectText (":".data) ts
  pure ⟨w, restAll ts⟩

/- PythonParseResult: ordered alternation FileRef then Error. -/
def pythonMatch (ts : List Tok) : Option PythonParseResult :=
  match pythonFileRefMatch ts with
  | some fr => some ⟨some fr, none⟩
  | none =>
    match pythonErrorLineMatch ts with
    | some e => some ⟨none, some e⟩
    | none => none

/- GoParseResult: ordered alternation CompileError then Panic. -/
def goMatch (ts : List Tok) : Option GoParseResult :=
  match goCompileMatch ts with
  | some ce => some ⟨some ce, none⟩
  | none =>
    match goPanicMatch ts with
    | some p => some ⟨none, some p⟩
    | none => none

/- Grammar of UnmatchedLine: a single `@Rest` capture of the whole
line; it always succeeds. -/
def unmatchedLineMatch (ts : List Tok) : Option UnmatchedLine :=
  some ⟨restAll ts⟩

/- Language selector constants; Go declares Language as an integer
type, so any integer is a possible selector. -/

def LangUnknown : Nat := 0
def LangFlutter : Nat := 1
def LangPython : Nat := 2
def LangGo : Nat := 3

inductive ParsedLine where
  | flutterE (e : FlutterError)
  | pythonR (r : PythonParseResult)
  | goR (r : GoParseResult)
  | unmatchedL (u : UnmatchedLine)
  deriving DecidableEq, Repr

def unknownLangMsg : Chars := "unknown language specified for parsing".data

def parseErrMsg : Chars := "parsing error".data

/- Fallback of ParseLine: the original line, with the appended newline
removed again, is re-parsed by the unmatched grammar. -/
def fallbackUnmatched (lineN : Chars) : Except Chars ParsedLine :=
  let orig := trimSuffixNL lineN
  match unmatchedLineMatch (tokenize orig) with
  | some u => .ok (.unmatchedL u)
  | none => .error parseErrMsg

/- ParseLine of src/parser.go: append a newline when missing, run the
grammar of the selected language, trim the trailing newline from the
captured messages, and fall back to the unmatched grammar when the
language grammar fails.  An unrecognized selector is rejected on every
call. -/
def ParseLine (line : Chars) (lang : Nat) : Except Chars ParsedLine :=
  if lang = LangFlutter then
    match flutterMatch (tokenize (withNL line)) with
    | some e => .ok (.flutterE { e with Message := trimSuffixNL e.Message })
    | none => fallbackUnmatched (withNL line)
  else if lang = LangPython then
    match pythonMatch (tokenize (withNL line)) with
    | some r =>
      .ok (.pythonR { r with
        Error := r.Error.map (fun e => { e with Message := trimSuffixNL e.Message }) })
    | none => fallbackUnmatched (withNL line)
  else if lang = LangGo then
    match goMatch (tokenize (withNL line)) with
    | some r =>
      .ok (.goR { r with
        CompileError := r.CompileError.map
          (fun e => { e with Message := trimSuffixNL e.Message }),
        Panic := r.Panic.map (fun e => { e with Message := trimSuffixNL e.Message }) })
    | none => fallbackUnmatched (withNL line)
  else
    .error unknownLangMsg

/- Outputs of the processing loop of src/main.go: one constructor per
print site. -/
inductive Emitted where
  | parsedFlutter (info : ErrorInfo)
  | parsedGoCompile (info : ErrorInfo)
  | parsedGoPanic (info : ErrorInfo)
  | emptyGoStructure (r : GoParseResult)
  | contextPythonFile (fr : PythonFileRef)
  | parsedPythonContext (info : ErrorInfo)
  | parsedPython (info : ErrorInfo)
  | emptyPythonStructure (r : PythonParseResult)
  | unmatchedLine (content : Chars)
  | internalError (msg : Chars)
  deriving DecidableEq, Repr

/- True for the three classifications of the interface: a diagnostic
record, a context notification, or an Unmatched passthrough. -/
def Emitted.isClassification : Emitted → Bool
  | .emptyGoStructure _ => false
  | .emptyPythonStructure _ => false
  | .internalError _ => false
  | _ => true

/- One iteration of the processing loop of src/main.go.  The pending
Python file reference from the previous iteration is read and cleared
first; empty lines are skipped without output; a parsed Python error
line combines with the saved reference when one is present. -/
def processLine (lang : Nat) (pending : Option PythonFileRef) (line : Chars) :
    Option Emitted × Option PythonFileRef :=
  let current := if lang = LangPython then pending else none
  if line = [] then (none, none)
  else
    match ParseLine line lang with
    | .error m => (some (.internalError m), none)
    | .ok (.flutterE e) => (some (.parsedFlutter e.ToErrorInfo), none)
    | .ok (.goR r) =>
      match r.CompileError with
      | some ce => (some (.parsedGoCompile ce.ToErrorInfo), none)
      | none =>
        match r.Panic with
        | some p => (some (.parsedGoPanic p.ToErrorInfo), none)
        | none => (some (.emptyGoStructure r), none)
    | .ok (.pythonR r) =>
      match r.FileRef with
      | some fr => (some (.contextPythonFile fr), some fr)
      | none =>
        match r.Error with
        | some e =>
          let info : ErrorInfo := { Typ := e.ErrType, Message := trimSpace e.Message }
          match current with
          | some c =>
            (some (.parsedPythonContext { info with Filename := c.Filename, Line := c.Line }),
             none)
          | none => (some (.parsedPython info), none)
        | none => (some (.emptyPythonStructure r), none)
    | .ok (.unmatchedL u) => (some (.unmatchedLine u.Content), none)

/- The auto-detect iteration of the repository: LogEntry from the
second document of src/parser.go, with its alternatives in the fixed
priority order Flutter, GoCompile, GoPanic, PythonFile, PythonError,
Unmatched. -/
structure LogEntry where
  Flutter : Option FlutterError := none
  GoCompile : Option GoCompileError := none
  GoPanic : Option GoPanic := none
  PythonFile : Option PythonFileRef := none
  PythonError : Option PythonErrorLine := none
  Unmatched : Option Chars := none
  deriving DecidableEq, Repr

def logEntryMatch (ts : List Tok) : LogEntry :=
  match flutterMatch ts with
  | some e => { Flutter := some e }
  | none =>
    match goCompileMatch ts with
    | some e => { GoCompile := some e }
    | none =>
      match goPanicMatch ts with
      | some e => { GoPanic := some e }
      | none =>
        match pythonFileRefMatch ts with
        | some e => { PythonFile := some e }
        | none =>
          match pythonErrorLineMatch ts with
          | some e => { PythonError := some e }
          | none => { Unmatched := some (restAll ts) }

/- ParseLogLine of the auto-detect iteration: append a newline, run the
combined grammar, then trim the trailing newline from every captured
field centrally. -/
def ParseLogLine (line : Chars) : Option LogEntry :=
  let e := logEntryMatch (tokenize (withNL line))
  some { e with
    Unmatched := e.Unmatched.map trimSuffixNL,
    Flutter := e.Flutter.map (fun f => { f with Message := trimSuffixNL f.Message }),
    GoCompile := e.GoCompile.map (fun g => { g with Message := trimSuffixNL g.Message }),
    GoPanic := e.GoPanic.map (fun g => { g with Message := trimSuffixNL g.Message }),
    PythonError := e.PythonError.map (fun p => { p with Message := trimSuffixNL p.Message }) }

/- Rust grammar of src/unnamed/part_001.  Modelled from the spec: the
lexer rules for the LBracket, RBracket, ErrorCode and Arrow tokens the
grammar refers to are absent from logLexer in src/parser.go; they are
modelled from the specification's token list (brackets, an error-code
pattern such as E0308, and the location arrow marker), with marker
priority over the generic rules.  The grammar structs RustMsgLine and
RustLocation and the ToErrorInfo conversion follow the source. -/

def lbracketLen : Chars → Nat
  | '[' :: _ => 1
  | _ => 0

def rbracketLen : Chars → Nat
  | ']' :: _ => 1
  | _ => 0

def errorCodeLen : Chars → Nat
  | 'E' :: rest => let n := numLen rest; if 0 < n then n + 1 else 0
  | _ => 0

def arrowLen (cs : Chars) : Nat :=
  if litPrefix ("-->".data) cs then 3 else 0

def rustCandidates (cs : Chars) : List (TokKind × Nat) :=
  [ (TokKind.PanicStart, panicLen cs), (TokKind.FileStart, fileStartLen cs),
    (TokKind.Arrow, arrowLen cs), (TokKind.ErrorCode, errorCodeLen cs),
    (TokKind.LBracket, lbracketLen cs), (TokKind.RBracket, rbracketLen cs),
    (TokKind.Str, stringLen cs),
    (TokKind.Whitespace, wsLen cs), (TokKind.EOL, eolLen cs),
    (TokKind.Number, numLen cs), (TokKind.Word, wordLen cs),
    (TokKind.Path, pathLen cs),
    (TokKind.Colon, colonLen cs), (TokKind.Comma, commaLen cs),
    (TokKind.Other, otherLen cs) ]

def rustNextToken (cs : Chars) : Tok × Chars :=
  let kn := pickBest (rustCandidates cs)
  let n := max kn.2 1
  (⟨kn.1, cs.take n⟩, cs.drop n)

def rustTokenizeF : Nat → Chars → List Tok
  | 0, _ => []
  | _, [] => []
  | fuel + 1, c :: cs =>
    let tr := rustNextToken (c :: cs)
    tr.1 :: rustTokenizeF fuel tr.2

def rustTokenize (cs : Chars) : List Tok := rustTokenizeF (cs.length + 1) cs

structure RustLocation where
  Filename : Chars
  Line : Nat
  Column : Nat
  deriving DecidableEq, Repr

structure RustMsgLine where
  Level : Chars
  Code : Option Chars
  Message : Chars
  Location : Option RustLocation
  deriving DecidableEq, Repr

/- Grammar of RustLocation: `@Arrow @Path ":" @Number ":" @Number`. -/
def rustLocationMatch (ts : List Tok) : Option (RustLocation × List Tok) := do
  let (_, ts) ← expectKind TokKind.Arrow ts
  let (fn, ts) ← expectKind TokKind.Path ts
  let ts ← expectText (":".data) ts
  let (l, ts) ← expectNumber ts
  let ts ← expectText (":".data) ts
  let (c, ts) ← expectNumber ts
  pure (⟨fn, l, c⟩, ts)

/- Grammar of RustMsgLine: a literal error or warning keyword, an
optional bracketed error code, a colon, the rest of the message line,
and an optional location line immediately following. -/
def rustMsgLineMatch (ts : List Tok) : Option RustMsgLine := do
  let (lvl, ts) ←
    match dropWs ts with
    | t :: rest =>
      if t.text = "error".data ∨ t.text = "warning".data then some (t.text, rest) else none
    | [] => none
  let (code, ts) :=
    match expectKind TokKind.LBracket ts with
    | some (_, ts1) =>
      match expectKind TokKind.ErrorCode ts1 with
      | some (c, ts2) =>
        match expectKind TokKind.RBracket ts2 with
        | some (_, ts3) => (some c, ts3)
        | none => (none, ts)
      | none => (none, ts)
    | none => (none, ts)
  let ts ← expectText (":".data) ts
  let (msg, ts) := restUntilEOL ts
  let ts := optionalEOL ts
  let (loc, ts) :=
    match rustLocationMatch ts with
    | some (l, ts') => (some l, ts')
    | none => (none, ts)
  if atEnd ts then pure ⟨lvl, code, msg, loc⟩ else none

/- strings.Title on the single lowercase severity keywords of the
grammar: capitalize the first character. -/
def capFirst : Chars → Chars
  | [] => []
  | c :: cs => c.toUpper :: cs

def RustMsgLine.ToErrorInfo (e : RustMsgLine) : ErrorInfo :=
  let info : ErrorInfo := { Typ := capFirst e.Level, Message := trimSpace e.Message }
  let info :=
    match e.Code with
    | some c => { info with Message := '[' :: c ++ ']' :: ' ' :: info.Message }
    | none => info
  match e.Location with
  | some l =>
    { info with Filename := l.Filename, Line := l.Line, Column := some l.Column }
  | none => info

/- The Rust parser is invoked on the raw text of a message line,
optionally followed by its location line on the next physical line. -/
def parseRust (input : Chars) : Option RustMsgLine :=
  rustMsgLineMatch (rustTokenize input)

/- Supporting lemmas. -/

theorem joinToks_cons (t : Tok) (ts : List Tok) :
    joinToks (t :: ts) = t.text ++ joinToks ts := rfl

/- Tokenization covers the whole input with no gaps: re-joining the
token texts restores the input exactly. -/
theorem joinToks_tokenizeF :
    ∀ (fuel : Nat) (cs : Chars), cs.length < fuel →
      joinToks (tokenizeF fuel cs) = cs := by
  intro fuel
  induction fuel with
  | zero => intro cs h; exact absurd h (Nat.not_lt_zero _)
  | succ n ih =>
    intro cs h
    cases cs with
    | nil => rfl
    | cons c cs' =>
      have hone : 1 ≤ max (pickBest (candidates (c :: cs'))).2 1 := Nat.le_max_right _ _
      simp only [tokenizeF, nextToken, joinToks_cons]
      rw [ih]
      · exact List.take_append_drop _ (c :: cs')
      · rw [List.length_drop]
        simp only [List.length_cons] at h ⊢
        omega

theorem joinToks_tokenize (cs : Chars) : joinToks (tokenize cs) = cs :=
  joinToks_tokenizeF (cs.length + 1) cs (Nat.lt_succ_self _)

theorem trimSuffixNL_withNL (line : Chars) (h : endsWithNL line = false) :
    trimSuffixNL (withNL line) = line := by
  have h1 : withNL line = line ++ '\n' :: [] := by
    unfold withNL
    rw [if_neg (by simp [h])]
  have h2 : endsWithNL (line ++ '\n' :: []) = true := by
    unfold endsWithNL
    rw [List.getLast?_concat]
    rfl
  rw [h1]
  unfold trimSuffixNL
  rw [if_pos (by simp [h2]), List.dropLast_concat]

/- The unmatched fallback of ParseLine always succeeds, returning the
original line with the appended newline removed again. -/
theorem fallbackUnmatched_eq (x : Chars) :
    fallbackUnmatched x = .ok (.unmatchedL ⟨trimSuffixNL x⟩) := by
  unfold fallbackUnmatched unmatchedLineMatch
  simp only [restAll, joinToks_tokenize]

/- For each of the three valid selectors, ParseLine always classifies. -/
theorem parseLine_total (line : Chars) (lang : Nat)
    (h : lang = LangFlutter ∨ lang = LangPython ∨ lang = LangGo) :
    ∃ r, ParseLine line lang = .ok r := by
  rcases h with h | h | h <;> subst h <;> unfold ParseLine
  · cases hm : flutterMatch (tokenize (withNL line)) <;>
      simp [LangFlutter, hm, fallbackUnmatched_eq]
  · cases hm : pythonMatch (tokenize (withNL line)) <;>
      simp [LangFlutter, LangPython, hm, fallbackUnmatched_eq]
  · cases hm : goMatch (tokenize (withNL line)) <;>
      simp [LangFlutter, LangPython, LangGo, hm, fallbackUnmatched_eq]

/- A successful PythonParseResult carries exactly one of its two
fields, the file reference taking priority. -/
theorem pythonMatch_shape (ts : List Tok) (r : PythonParseResult)
    (h : pythonMatch ts = some r) :
    (∃ fr, r = ⟨some fr, none⟩) ∨ (∃ e, r = ⟨none, some e⟩) := by
  unfold pythonMatch at h
  cases hf : pythonFileRefMatch ts <;> rw [hf] at h
  · cases he : pythonErrorLineMatch ts <;> rw [he] at h
    · exact absurd h (by simp)
    · injection h with h
      exact Or.inr ⟨_, h.symm⟩
  · injection h with h
    exact Or.inl ⟨_, h.symm⟩

/- A successful GoParseResult carries exactly one of its two fields,
the compile error taking priority. -/
theorem goMatch_shape (ts : List Tok) (r : GoParseResult)
    (h : goMatch ts = some r) :
    (∃ ce, r = ⟨some ce, none⟩) ∨ (∃ p, r = ⟨none, some p⟩) := by
  unfold goMatch at h
  cases hf : goCompileMatch ts <;> rw [hf] at h
  · cases he : goPanicMatch ts <;> rw [he] at h
    · exact absurd h (by simp)
    · injection h with h
      exact Or.inr ⟨_, h.symm⟩
  · injection h with h
    exact Or.inl ⟨_, h.symm⟩

/- The pending slot handed to the next iteration depends only on the
current line, never on the pending value that was read. -/
theorem processLine_snd_indep (lang : Nat) (p : Option PythonFileRef) (line : Chars) :
    (processLine lang p line).2 = (processLine lang none line).2 := by
  unfold processLine
  by_cases hl : line = []
  · simp [hl]
  · simp only [hl, if_false]
    cases hP : ParseLine line lang with
    | error m => simp
    | ok v =>
      cases v with
      | flutterE e => simp
      | unmatchedL u => simp
      | goR r =>
        cases hr : r.CompileError <;> cases hp2 : r.Panic <;> simp [hr, hp2]
      | pythonR r =>
        cases hr : r.FileRef
        · cases he : r.Error
          · simp [hr, he]
          · simp only [hr, he]
            cases hc : (if lang = LangPython then p else none) <;> simp [hc]
        · simp [hr]

/- When the current line is not a Python error line, the whole
iteration is independent of the pending value. -/
theorem processLine_pending_unused (p : Option PythonFileRef) (line : Chars)
    (h : ¬ ∃ e, line ≠ [] ∧
        ParseLine line LangPython = .ok (.pythonR ⟨none, some e⟩)) :
    processLine LangPython p line = processLine LangPython none line := by
  unfold processLine
  by_cases hl : line = []
  · simp [hl]
  · simp only [hl, if_false]
    cases hP : ParseLine line LangPython with
    | error m => simp
    | ok v =>
      cases v with
      | flutterE e => simp
      | unmatchedL u => simp
      | goR r =>
        cases hr : r.CompileError <;> cases hp2 : r.Panic <;> simp [hr, hp2]
      | pythonR r =>
        obtain ⟨fr, er⟩ := r
        cases fr with
        | some f => simp
        | none =>
          cases er with
          | none => simp
          | some e => exact absurd ⟨e, hl, hP⟩ h

/- Claim theorems. -/

/-- C1: single-use pending context.  When line L1 parses as a Python
file-reference fragment, the fragment is held for exactly one
subsequent line: it combines with L2 exactly when L2 parses as a
Python error line, the iteration on L2 is otherwise unaffected by it,
the pending slot after L2 never holds L1's fragment, and the iteration
on any later line L3 is identical to a run in which L1 never
happened. -/
theorem single_use_pending_context (L1 L2 L3 : Chars) (f : PythonFileRef)
    (h1 : L1 ≠ [])
    (hf : ParseLine L1 LangPython = .ok (.pythonR ⟨some f, none⟩)) :
    (processLine LangPython none L1).2 = some f
    ∧ (∀ e : PythonErrorLine, L2 ≠ [] →
        ParseLine L2 LangPython = .ok (.pythonR ⟨none, some e⟩) →
        (processLine LangPython (processLine LangPython none L1).2 L2).1
          = some (.parsedPythonContext
              ⟨f.Filename, f.Line, none, e.ErrType, trimSpace e.Message⟩))
    ∧ ((¬ ∃ e : PythonErrorLine, L2 ≠ [] ∧
          ParseLine L2 LangPython = .ok (.pythonR ⟨none, some e⟩)) →
        processLine LangPython (processLine LangPython none L1).2 L2
          = processLine LangPython none L2)
    ∧ (processLine LangPython (processLine LangPython none L1).2 L2).2
        = (processLine LangPython none L2).2
    ∧ processLine LangPython
        (processLine LangPython (processLine LangPython none L1).2 L2).2 L3
        = processLine LangPython (processLine LangPython none L2).2 L3 := by
  have h1pend : (processLine LangPython none L1).2 = some f := by
    unfold processLine
    simp [h1, hf]
  refine ⟨h1pend, ?_, ?_, ?_, ?_⟩
  · intro e hL2 hPe
    rw [h1pend]
    unfold processLine
    simp [hL2, hPe]
  · intro hno
    rw [h1pend]
    exact processLine_pending_unused (some f) L2 hno
  · rw [h1pend]
    exact processLine_snd_indep LangPython (some f) L2
  · rw [h1pend, processLine_snd_indep LangPython (some f) L2]

theorem single_use_pending_context_witness :
    (processLine LangPython none ("File \"gcd.py\", line 1".data)).2
        = some ⟨"gcd.py".data, 1⟩
    ∧ (processLine LangPython
          (processLine LangPython none ("File \"gcd.py\", line 1".data)).2
          ("SyntaxError: invalid syntax".data)).1
        = some (.parsedPythonContext
            ⟨"gcd.py".data, 1, none, "SyntaxError".data, "invalid syntax".data⟩) := by
  have h := single_use_pending_context ("File \"gcd.py\", line 1".data)
      ("SyntaxError: invalid syntax".data) [] ⟨"gcd.py".data, 1⟩
      (by decide) (by rfl)
  exact ⟨h.1, h.2.1 ⟨"SyntaxError".data, " invalid syntax".data⟩ (by decide) (by rfl)⟩

/-- C2: totality of classification.  For every input line and every
valid language selector, ParseLine classifies the line and never
returns an error. -/
theorem parseLine_totality (line : Chars) (lang : Nat)
    (h : lang = LangFlutter ∨ lang = LangPython ∨ lang = LangGo) :
    ∃ r, ParseLine line lang = .ok r :=
  parseLine_total line lang h

theorem parseLine_totality_witness :
    ∃ r, ParseLine ("hello".data) LangPython = .ok r :=
  parseLine_totality ("hello".data) LangPython (Or.inr (Or.inl rfl))

/-- C3: priority ordering in auto-detect dispatch.  A line that
matches both the five-field Flutter grammar and the four-field Go
compile grammar classifies as Flutter, the first grammar in the fixed
priority order of LogEntry. -/
theorem auto_detect_priority_flutter_over_go (line : Chars)
    (f : FlutterError) (g : GoCompileError)
    (hf : flutterMatch (tokenize (withNL line)) = some f)
    (_hg : goCompileMatch (tokenize (withNL line)) = some g) :
    ParseLogLine line
      = some { Flutter := some { f with Message := trimSuffixNL f.Message } } := by
  unfold ParseLogLine logEntryMatch
  simp [hf]

theorem auto_detect_priority_flutter_over_go_witness :
    flutterMatch (tokenize (withNL ("a.go:1:2: Error: boom".data)))
        = some ⟨"a.go".data, 1, 2, "Error".data, " boom\n".data⟩
    ∧ goCompileMatch (tokenize (withNL ("a.go:1:2: Error: boom".data)))
        = some ⟨"a.go".data, 1, 2, " Error: boom\n".data⟩
    ∧ ParseLogLine ("a.go:1:2: Error: boom".data)
        = some { Flutter := some ⟨"a.go".data, 1, 2, "Error".data, " boom".data⟩ } := by
  refine ⟨rfl, rfl, ?_⟩
  exact auto_detect_priority_flutter_over_go ("a.go:1:2: Error: boom".data)
      ⟨"a.go".data, 1, 2, "Error".data, " boom\n".data⟩
      ⟨"a.go".data, 1, 2, " Error: boom\n".data⟩ rfl rfl

/-- C4: round trip on Unmatched.  When ParseLine classifies an input
line (one without its trailing newline, per the input interface) as
Unmatched, the content is the line itself, character for character. -/
theorem unmatched_round_trip (line : Chars) (lang : Nat) (u : UnmatchedLine)
    (hnl : endsWithNL line = false)
    (hp : ParseLine line lang = .ok (.unmatchedL u)) :
    u.Content = line := by
  unfold ParseLine at hp
  split_ifs at hp
  · cases hm : flutterMatch (tokenize (withNL line)) <;> rw [hm] at hp
    · rw [fallbackUnmatched_eq] at hp
      injection hp with hp
      injection hp with hp
      rw [← hp]
      exact trimSuffixNL_withNL line hnl
    · exact absurd hp (by simp)
  · cases hm : pythonMatch (tokenize (withNL line)) <;> rw [hm] at hp
    · rw [fallbackUnmatched_eq] at hp
      injection hp with hp
      injection hp with hp
      rw [← hp]
      exact trimSuffixNL_withNL line hnl
    · exact absurd hp (by simp)
  · cases hm : goMatch (tokenize (withNL line)) <;> rw [hm] at hp
    · rw [fallbackUnmatched_eq] at hp
      injection hp with hp
      injection hp with hp
      rw [← hp]
      exact trimSuffixNL_withNL line hnl
    · exact absurd hp (by simp)

theorem unmatched_round_trip_witness :
    ParseLine ("  |     ^^^ boom".data) LangPython
        = .ok (.unmatchedL ⟨"  |     ^^^ boom".data⟩)
    ∧ (UnmatchedLine.mk ("  |     ^^^ boom".data)).Content
        = "  |     ^^^ boom".data :=
  ⟨rfl, unmatched_round_trip ("  |     ^^^ boom".data) LangPython
      ⟨"  |     ^^^ boom".data⟩ (by decide) rfl⟩

/-- C5: tokenizer marker priority.  Any input beginning with the panic
introducer tokenizes with the PanicStart marker as its first token
(never a bare Word followed by a Colon), and any input beginning with
the file-reference introducer tokenizes with the FileStart marker
first. -/
theorem tokenizer_marker_priority (cs : Chars) :
    (tokenize ('p' :: 'a' :: 'n' :: 'i' :: 'c' :: ':' :: cs)).head?
        = some ⟨TokKind.PanicStart, "panic:".data⟩
    ∧ (tokenize ('F' :: 'i' :: 'l' :: 'e' :: ' ' :: '"' :: cs)).head?
        = some ⟨TokKind.FileStart, "File \"".data⟩ :=
  ⟨rfl, rfl⟩

/-- C6: Flutter scenario.  The single documented line parses in the
Flutter format to the documented unified record. -/
theorem flutter_scenario :
    ParseLine ("lib/main.dart:9:1: Error: Type \x27oid\x27 not found.".data) LangFlutter
        = .ok (.flutterE ⟨"lib/main.dart".data, 9, 1, "Error".data,
            " Type \x27oid\x27 not found.".data⟩)
    ∧ FlutterError.ToErrorInfo
          ⟨"lib/main.dart".data, 9, 1, "Error".data, " Type \x27oid\x27 not found.".data⟩
        = ⟨"lib/main.dart".data, 9, some 1, "Error".data,
            "Type \x27oid\x27 not found.".data⟩ :=
  ⟨rfl, rfl⟩

/-- C7: interpreter two-line combine scenario.  The File line yields
the context notification for gcd.py line 1 and saves it; the following
SyntaxError line combines with it into the documented record. -/
theorem python_two_line_combine_scenario :
    (processLine LangPython none ("File \"gcd.py\", line 1".data)).1
        = some (.contextPythonFile ⟨"gcd.py".data, 1⟩)
    ∧ (processLine LangPython none ("File \"gcd.py\", line 1".data)).2
        = some ⟨"gcd.py".data, 1⟩
    ∧ (processLine LangPython
          (processLine LangPython none ("File \"gcd.py\", line 1".data)).2
          ("SyntaxError: invalid syntax".data)).1
        = some (.parsedPythonContext
            ⟨"gcd.py".data, 1, none, "SyntaxError".data, "invalid syntax".data⟩) :=
  ⟨rfl, rfl, rfl⟩

/-- C8: compiled-language scenario with inline location.  The Rust
grammar parses the message line together with its location line into a
single record with capitalized severity and the bracketed code
prefixed onto the message. -/
theorem rust_inline_location_scenario :
    (parseRust ("error[E0308]: mismatched types\n --> src/main.rs:5:5".data)).map
        RustMsgLine.ToErrorInfo
      = some ⟨"src/main.rs".data, 5, some 5, "Error".data,
          "[E0308] mismatched types".data⟩ :=
  rfl

/-- C9 counterexample: an empty line read by the processing loop emits
no classification at all, refuting the claim that every line read by
the loop emits exactly one. -/
theorem empty_line_emits_nothing :
    (processLine LangPython none []).1 = none :=
  rfl

/-- C9 (amended): for every non-empty input line and valid language
selection, the processing loop emits exactly one classification: a
diagnostic record, a context-fragment notification, or an Unmatched
passthrough; empty lines are skipped and emit nothing. -/
theorem one_classification_per_nonempty_line (lang : Nat)
    (pending : Option PythonFileRef) (line : Chars) (hl : line ≠ [])
    (hlang : lang = LangFlutter ∨ lang = LangPython ∨ lang = LangGo) :
    ∃ e, (processLine lang pending line).1 = some e
      ∧ e.isClassification = true := by
  unfold processLine
  rcases hlang with h | h | h <;> subst h <;> unfold ParseLine
  · cases hm : flutterMatch (tokenize (withNL line)) <;>
      simp [LangFlutter, hl, hm, fallbackUnmatched_eq, Emitted.isClassification]
  · cases hm : pythonMatch (tokenize (withNL line))
    · simp [LangFlutter, LangPython, hl, hm, fallbackUnmatched_eq,
        Emitted.isClassification]
    · rcases pythonMatch_shape _ _ hm with ⟨fr, rfl⟩ | ⟨e, rfl⟩
      · simp [LangFlutter, LangPython, hl, hm, Emitted.isClassification]
      · cases hp : (pending : Option PythonFileRef) <;>
          simp [LangFlutter, LangPython, hl, hm, hp, Emitted.isClassification]
  · cases hm : goMatch (tokenize (withNL line))
    · simp [LangFlutter, LangPython, LangGo, hl, hm, fallbackUnmatched_eq,
        Emitted.isClassification]
    · rcases goMatch_shape _ _ hm with ⟨ce, rfl⟩ | ⟨p, rfl⟩ <;>
        simp [LangFlutter, LangPython, LangGo, hl, hm, Emitted.isClassification]

theorem one_classification_per_nonempty_line_witness :
    ∃ e, (processLine LangGo none ("panic: boom".data)).1 = some e
      ∧ e.isClassification = true :=
  one_classification_per_nonempty_line LangGo none ("panic: boom".data)
    (by decide) (Or.inr (Or.inr rfl))

/-- C10: an invalid language selector, LangUnknown included, is
rejected by ParseLine on every call, with an error and no
classification. -/
theorem invalid_language_errors (line : Chars) (lang : Nat)
    (h1 : lang ≠ LangFlutter) (h2 : lang ≠ LangPython) (h3 : lang ≠ LangGo) :
    ParseLine line lang = .error unknownLangMsg := by
  unfold ParseLine
  rw [if_neg h1, if_neg h2, if_neg h3]

theorem invalid_language_errors_witness :
    ParseLine ("x".data) LangUnknown = .error unknownLangMsg :=
  invalid_language_errors ("x".data) LangUnknown (by decide) (by decide) (by decide)

end ErrorParser
